import Mathlib

/-!
Verification of the update-engine Policy decision contract
(`update_manager/policy.h`) against its specification.

The repository snapshot holds the interface and data declarations
(`EvalStatus`, `UpdateState`, `UpdateCannotStartReason`,
`UpdateDownloadParams`, the `Policy` class). The decision algorithms
themselves (`UpdateCanStart`, `UpdateDownloadAllowed` bodies) are declared
virtual in `policy.h` and their implementation is not part of the snapshot,
so they are modelled here from the specification's fixed-precedence
description (backoff, scattering, URL selection, exhaustion accounting).

Times and durations are modelled as `Nat` wallclock values; C++ `int`
counters that the data-model invariants constrain to be non-negative are
modelled as `Nat`; URL indices, which may be -1, are `Int`.
-/

namespace UpdateEngine

/-- The three different results of a policy request (`EvalStatus`,
policy.h lines 19-23). -/
inductive EvalStatus where
  | kFailed
  | kSucceeded
  | kAskMeAgainLater
  deriving DecidableEq, Repr

/-- One recorded download error: the URL index attempted, the error code,
and the wallclock timestamp (the `std::tuple<int, ErrorCode, base::Time>`
entries of `UpdateState::download_errors`, policy.h lines 87-88). -/
structure DownloadError where
  url_idx : Nat
  error_code : Nat
  time : Nat
  deriving DecidableEq, Repr

/-- A snapshot of the state of the current update process
(`UpdateState`, policy.h lines 48-111). -/
structure UpdateState where
  is_interactive : Bool
  is_delta_payload : Bool
  first_seen : Nat
  num_checks : Nat
  num_failures : Nat
  failures_last_updated : Nat
  download_urls : List String
  download_errors_max : Nat
  last_download_url_idx : Int
  last_download_url_num_errors : Nat
  download_errors : List DownloadError
  backoff_expiry : Nat
  is_backoff_disabled : Bool
  scatter_wait_period : Nat
  scatter_check_threshold : Nat
  scatter_wait_period_max : Nat
  scatter_check_threshold_min : Nat
  scatter_check_threshold_max : Nat
  deriving DecidableEq, Repr

/-- Reasons for not allowing an update to start
(`UpdateCannotStartReason`, policy.h lines 117-123). -/
inductive UpdateCannotStartReason where
  | kUndefined
  | kCheckDue
  | kScattering
  | kBackoff
  | kCannotDownload
  deriving DecidableEq, Repr

/-- Results regarding downloading and applying of an update, as determined
by UpdateCanStart (`UpdateDownloadParams`, policy.h lines 125-161). -/
structure UpdateDownloadParams where
  update_can_start : Bool
  cannot_start_reason : UpdateCannotStartReason
  download_url_idx : Int
  download_url_num_errors : Nat
  p2p_allowed : Bool
  do_increment_failures : Bool
  backoff_expiry : Nat
  scatter_wait_period : Nat
  scatter_check_threshold : Nat
  deriving DecidableEq, Repr

/-- Step 1 gate of UpdateCanStart: backoff blocks the update when backoff
is not disabled, now is before the persisted expiry, and the request is
not interactive (spec section 4.3 step 1). -/
def backoffBlocks (now : Nat) (st : UpdateState) : Bool :=
  !st.is_backoff_disabled && decide (now < st.backoff_expiry) && !st.is_interactive

/-- Modelled from the spec: the scattering wait-period assignment of
`UpdateCanStart` is not in the snapshot (only the `Policy::UpdateCanStart`
declaration is). Per spec section 4.3 step 2, a wait period bounded by
`scatter_wait_period_max` is assigned from a source of randomness once per
payload, while the persisted `scatter_wait_period` is still zero; a
non-zero persisted value is held fixed. `waitSeed` is the polled random
value. -/
def assignWaitPeriod (waitSeed : Nat) (st : UpdateState) : Nat :=
  if st.scatter_wait_period ≠ 0 then st.scatter_wait_period
  else if st.scatter_wait_period_max = 0 then 0
  else 1 + waitSeed % st.scatter_wait_period_max

/-- Modelled from the spec: the scattering check-threshold assignment of
`UpdateCanStart` is not in the snapshot. Per spec section 4.3 step 2, a
check threshold within `[scatter_check_threshold_min,
scatter_check_threshold_max]` is assigned once per payload, while the
persisted `scatter_check_threshold` is still zero; a non-zero persisted
value is held fixed. `threshSeed` is the polled random value. -/
def assignCheckThreshold (threshSeed : Nat) (st : UpdateState) : Nat :=
  if st.scatter_check_threshold ≠ 0 then st.scatter_check_threshold
  else st.scatter_check_threshold_min +
    threshSeed % (st.scatter_check_threshold_max - st.scatter_check_threshold_min + 1)

/-- The effective scattering wait period carried through a call: scattering
(and hence assignment) applies only to non-interactive requests; an
interactive call passes the persisted value through unchanged. -/
def effWait (waitSeed : Nat) (st : UpdateState) : Nat :=
  if st.is_interactive then st.scatter_wait_period else assignWaitPeriod waitSeed st

/-- The effective scattering check threshold carried through a call
(see `effWait`). -/
def effThreshold (threshSeed : Nat) (st : UpdateState) : Nat :=
  if st.is_interactive then st.scatter_check_threshold
  else assignCheckThreshold threshSeed st

/-- Step 2 gate of UpdateCanStart: the scattering gate is satisfied when
both `now ≥ first_seen + wait` and `num_checks ≥ threshold` hold
(spec section 4.3 step 2). -/
def scatterSatisfied (now wait thresh : Nat) (st : UpdateState) : Bool :=
  decide (st.first_seen + wait ≤ now) && decide (thresh ≤ st.num_checks)

/-- Accumulated error count of URL index `i`: entries of `download_errors`
with that index, counting only errors at or after `first_seen`
(spec section 4.3 step 3). -/
def urlErrorCount (st : UpdateState) (i : Nat) : Nat :=
  (st.download_errors.filter
    (fun e => e.url_idx == i && decide (st.first_seen ≤ e.time))).length

/-- A URL index is eligible when its accumulated error count has not
reached `download_errors_max`. -/
def urlEligible (st : UpdateState) (i : Nat) : Bool :=
  decide (urlErrorCount st i < st.download_errors_max)

/-- The index the URL walk starts from: just after `last_download_url_idx`
(which is -1 for a newly seen payload), wrapping around the URL count. -/
def startIdx (st : UpdateState) : Nat :=
  (st.last_download_url_idx + 1).toNat % st.download_urls.length

/-- The URL walk: try the index at offset `k` from the start (wrapping),
then the following offsets, for `fuel` candidates in total. Returns the
first eligible index. -/
def searchUrl (st : UpdateState) : Nat → Nat → Option Nat
  | 0, _ => none
  | fuel + 1, k =>
    if urlEligible st ((startIdx st + k) % st.download_urls.length) then
      some ((startIdx st + k) % st.download_urls.length)
    else searchUrl st fuel (k + 1)

/-- Modelled from the spec: step 3 of `UpdateCanStart` (URL selection) is
not in the snapshot. Per spec section 4.3 step 3, walk the candidate URLs
starting just after `last_download_url_idx` (wrapping), and select the
first whose accumulated error count is below `download_errors_max`. -/
def selectUrl (st : UpdateState) : Option Nat :=
  if st.download_urls.length = 0 then none
  else searchUrl st st.download_urls.length 0

/-- Modelled from the spec: the exponential backoff interval cap; the spec
fixes only the contract (growth capped at an upper bound), design note in
spec section 9. -/
def backoffIntervalCap : Nat := 2 ^ 16

/-- Modelled from the spec: `f(num_failures)`, an exponential function of
the failure count capped at an upper bound (spec section 4.3 step 4). -/
def backoffInterval (numFailures : Nat) : Nat :=
  min (2 ^ numFailures) backoffIntervalCap

/-- Modelled from the spec: the body of `Policy::UpdateCanStart` (declared
at policy.h lines 217-222) is not in the snapshot; this is the
fixed-precedence decision algorithm of spec section 4.3. Polled variables
are explicit arguments: `now` (wallclock), `waitSeed`/`threshSeed`
(randomness for the scattering assignment), `p2p_enabled` (device
policy). Every branch returns a complete `UpdateDownloadParams`. -/
def UpdateCanStart (now waitSeed threshSeed : Nat) (p2p_enabled : Bool)
    (st : UpdateState) : EvalStatus × UpdateDownloadParams :=
  if backoffBlocks now st then
    (.kSucceeded,
      { update_can_start := false
        cannot_start_reason := .kBackoff
        download_url_idx := -1
        download_url_num_errors := 0
        p2p_allowed := false
        do_increment_failures := false
        backoff_expiry := st.backoff_expiry
        scatter_wait_period := st.scatter_wait_period
        scatter_check_threshold := st.scatter_check_threshold })
  else if !st.is_interactive &&
      !(scatterSatisfied now (effWait waitSeed st) (effThreshold threshSeed st) st) then
    (.kSucceeded,
      { update_can_start := false
        cannot_start_reason := .kScattering
        download_url_idx := -1
        download_url_num_errors := 0
        p2p_allowed := false
        do_increment_failures := false
        backoff_expiry := st.backoff_expiry
        scatter_wait_period := effWait waitSeed st
        scatter_check_threshold := effThreshold threshSeed st })
  else
    match selectUrl st with
    | some i =>
      (.kSucceeded,
        { update_can_start := true
          cannot_start_reason := .kUndefined
          download_url_idx := (i : Int)
          download_url_num_errors :=
            if (i : Int) = st.last_download_url_idx
            then st.last_download_url_num_errors else 0
          p2p_allowed := false
          do_increment_failures := false
          backoff_expiry := st.backoff_expiry
          scatter_wait_period := effWait waitSeed st
          scatter_check_threshold := effThreshold threshSeed st })
    | none =>
      if p2p_enabled then
        (.kSucceeded,
          { update_can_start := true
            cannot_start_reason := .kUndefined
            download_url_idx := -1
            download_url_num_errors := 0
            p2p_allowed := true
            do_increment_failures := false
            backoff_expiry := st.backoff_expiry
            scatter_wait_period := effWait waitSeed st
            scatter_check_threshold := effThreshold threshSeed st })
      else
        (.kSucceeded,
          { update_can_start := false
            cannot_start_reason := .kCannotDownload
            download_url_idx := -1
            download_url_num_errors := 0
            p2p_allowed := false
            do_increment_failures := true
            backoff_expiry :=
              if st.is_backoff_disabled then st.backoff_expiry
              else now + backoffInterval (st.num_failures + 1)
            scatter_wait_period := effWait waitSeed st
            scatter_check_threshold := effThreshold threshSeed st })

/-- The `UpdateDownloadParams` component of a call's result. -/
def resultOf (now waitSeed threshSeed : Nat) (p2p_enabled : Bool)
    (st : UpdateState) : UpdateDownloadParams :=
  (UpdateCanStart now waitSeed threshSeed p2p_enabled st).2

/-- The driver-visible shape of a call: `policy.h` (lines 217-222) declares
`UpdateCanStart` taking `UpdateState update_state` by value, so the state
the caller holds after the call is exactly the state it supplied. -/
def UpdateCanStartCall (now waitSeed threshSeed : Nat) (p2p_enabled : Bool)
    (st : UpdateState) : (EvalStatus × UpdateDownloadParams) × UpdateState :=
  (UpdateCanStart now waitSeed threshSeed p2p_enabled st, st)

/-- The network connection types the download-allowed decision
distinguishes (from the shill provider, external to the snapshot). -/
inductive ConnectionType where
  | ethernet
  | wifi
  | wimax
  | bluetooth
  | cellular
  deriving DecidableEq, Repr

/-- Modelled from the spec: the concrete acceptability rule for a network
connection type is not in the snapshot (spec section 4.4: metered/cellular
connections disallowed unless explicitly permitted by device policy). -/
def connectionAllowed (c : ConnectionType) (policyAllowsCellular : Bool) : Bool :=
  match c with
  | .ethernet => true
  | .wifi => true
  | .wimax => true
  | .bluetooth => false
  | .cellular => policyAllowsCellular

/-- Modelled from the spec: the body of `Policy::UpdateDownloadAllowed`
(declared at policy.h lines 230-234) is not in the snapshot. Per spec
section 4.4 it returns a pure boolean on success; it fails only when the
network-type variable cannot be read (`conn = none`), with an error
message; "not allowed" is a successful `false` result, never a failure. -/
def UpdateDownloadAllowed (conn : Option ConnectionType)
    (policyAllowsCellular : Bool) : EvalStatus × Option Bool × Option String :=
  match conn with
  | none => (.kFailed, none, some "unable to read network connection type")
  | some c => (.kSucceeded, some (connectionAllowed c policyAllowsCellular), none)

/-! ## Branch characterization lemmas -/

/-- The backoff condition of step 1, spelled out. -/
theorem backoffBlocks_iff (now : Nat) (st : UpdateState) :
    backoffBlocks now st = true ↔
      st.is_backoff_disabled = false ∧ now < st.backoff_expiry ∧
        st.is_interactive = false := by
  simp [backoffBlocks, Bool.and_eq_true, Bool.not_eq_true', decide_eq_true_iff,
    and_assoc]

/-- Step 1 taken: the backoff record is returned. -/
theorem updateCanStart_backoff (now ws ts : Nat) (p2p : Bool) (st : UpdateState)
    (hb : backoffBlocks now st = true) :
    UpdateCanStart now ws ts p2p st =
      (.kSucceeded,
        { update_can_start := false
          cannot_start_reason := .kBackoff
          download_url_idx := -1
          download_url_num_errors := 0
          p2p_allowed := false
          do_increment_failures := false
          backoff_expiry := st.backoff_expiry
          scatter_wait_period := st.scatter_wait_period
          scatter_check_threshold := st.scatter_check_threshold }) := by
  simp [UpdateCanStart, hb]

/-- Step 2 taken: the scattering record is returned. -/
theorem updateCanStart_scattering (now ws ts : Nat) (p2p : Bool) (st : UpdateState)
    (hb : backoffBlocks now st = false)
    (hni : st.is_interactive = false)
    (hgate : scatterSatisfied now (effWait ws st) (effThreshold ts st) st = false) :
    UpdateCanStart now ws ts p2p st =
      (.kSucceeded,
        { update_can_start := false
          cannot_start_reason := .kScattering
          download_url_idx := -1
          download_url_num_errors := 0
          p2p_allowed := false
          do_increment_failures := false
          backoff_expiry := st.backoff_expiry
          scatter_wait_period := effWait ws st
          scatter_check_threshold := effThreshold ts st }) := by
  simp [UpdateCanStart, hb, hni, hgate]

/-- The scattering gate was passed (or bypassed by interactivity). -/
def gatesPassed (now ws ts : Nat) (st : UpdateState) : Prop :=
  backoffBlocks now st = false ∧
    (st.is_interactive = true ∨
      scatterSatisfied now (effWait ws st) (effThreshold ts st) st = true)

/-- Steps 1-2 passed and a URL was selected: the normal-start record. -/
theorem updateCanStart_selected (now ws ts : Nat) (p2p : Bool) (st : UpdateState)
    (i : Nat) (hg : gatesPassed now ws ts st) (hsel : selectUrl st = some i) :
    UpdateCanStart now ws ts p2p st =
      (.kSucceeded,
        { update_can_start := true
          cannot_start_reason := .kUndefined
          download_url_idx := (i : Int)
          download_url_num_errors :=
            if (i : Int) = st.last_download_url_idx
            then st.last_download_url_num_errors else 0
          p2p_allowed := false
          do_increment_failures := false
          backoff_expiry := st.backoff_expiry
          scatter_wait_period := effWait ws st
          scatter_check_threshold := effThreshold ts st }) := by
  obtain ⟨hb, hgate⟩ := hg
  rcases hgate with hint | hsat
  · simp [UpdateCanStart, hb, hint, hsel]
  · simp [UpdateCanStart, hb, hsat, hsel]

/-- Steps 1-2 passed, no eligible URL, P2P available: start via P2P. -/
theorem updateCanStart_p2p (now ws ts : Nat) (st : UpdateState)
    (hg : gatesPassed now ws ts st) (hsel : selectUrl st = none) :
    UpdateCanStart now ws ts true st =
      (.kSucceeded,
        { update_can_start := true
          cannot_start_reason := .kUndefined
          download_url_idx := -1
          download_url_num_errors := 0
          p2p_allowed := true
          do_increment_failures := false
          backoff_expiry := st.backoff_expiry
          scatter_wait_period := effWait ws st
          scatter_check_threshold := effThreshold ts st }) := by
  obtain ⟨hb, hgate⟩ := hg
  rcases hgate with hint | hsat
  · simp [UpdateCanStart, hb, hint, hsel]
  · simp [UpdateCanStart, hb, hsat, hsel]

/-- Steps 1-2 passed, no eligible URL, no P2P: the cannot-download record,
with failure accounting. -/
theorem updateCanStart_cannotDownload (now ws ts : Nat) (st : UpdateState)
    (hg : gatesPassed now ws ts st) (hsel : selectUrl st = none) :
    UpdateCanStart now ws ts false st =
      (.kSucceeded,
        { update_can_start := false
          cannot_start_reason := .kCannotDownload
          download_url_idx := -1
          download_url_num_errors := 0
          p2p_allowed := false
          do_increment_failures := true
          backoff_expiry :=
            if st.is_backoff_disabled then st.backoff_expiry
            else now + backoffInterval (st.num_failures + 1)
          scatter_wait_period := effWait ws st
          scatter_check_threshold := effThreshold ts st }) := by
  obtain ⟨hb, hgate⟩ := hg
  rcases hgate with hint | hsat
  · simp [UpdateCanStart, hb, hint, hsel]
  · simp [UpdateCanStart, hb, hsat, hsel]

/-- Exhaustive branch case analysis: either the backoff branch, the
scattering branch, or the gates were passed. -/
theorem updateCanStart_cases (now ws ts : Nat) (st : UpdateState) :
    backoffBlocks now st = true ∨
      (backoffBlocks now st = false ∧ st.is_interactive = false ∧
        scatterSatisfied now (effWait ws st) (effThreshold ts st) st = false) ∨
      gatesPassed now ws ts st := by
  by_cases hb : backoffBlocks now st = true
  · exact Or.inl hb
  · rw [Bool.not_eq_true] at hb
    by_cases hint : st.is_interactive = true
    · exact Or.inr (Or.inr ⟨hb, Or.inl hint⟩)
    · rw [Bool.not_eq_true] at hint
      by_cases hsat :
          scatterSatisfied now (effWait ws st) (effThreshold ts st) st = true
      · exact Or.inr (Or.inr ⟨hb, Or.inr hsat⟩)
      · rw [Bool.not_eq_true] at hsat
        exact Or.inr (Or.inl ⟨hb, hint, hsat⟩)

/-! ## Scattering assignment lemmas -/

/-- A non-zero persisted wait period is carried through unchanged. -/
theorem effWait_preserve (ws : Nat) (st : UpdateState)
    (h : st.scatter_wait_period ≠ 0) :
    effWait ws st = st.scatter_wait_period := by
  unfold effWait assignWaitPeriod
  split <;> simp [h]

/-- A non-zero persisted check threshold is carried through unchanged. -/
theorem effThreshold_preserve (ts : Nat) (st : UpdateState)
    (h : st.scatter_check_threshold ≠ 0) :
    effThreshold ts st = st.scatter_check_threshold := by
  unfold effThreshold assignCheckThreshold
  split <;> simp [h]

/-- The effective wait period stays within the wait-period bound. -/
theorem effWait_bound (ws : Nat) (st : UpdateState)
    (h : st.scatter_wait_period = 0 ∨
      st.scatter_wait_period ≤ st.scatter_wait_period_max) :
    effWait ws st = 0 ∨ effWait ws st ≤ st.scatter_wait_period_max := by
  unfold effWait assignWaitPeriod
  split
  · exact h
  · split
    · rename_i hne
      rcases h with h0 | hle
      · exact absurd h0 hne
      · exact Or.inr hle
    · split
      · exact Or.inl rfl
      · rename_i hmax
        have : ws % st.scatter_wait_period_max < st.scatter_wait_period_max :=
          Nat.mod_lt _ (Nat.pos_of_ne_zero hmax)
        omega

/-- The effective check threshold stays within the threshold bounds. -/
theorem effThreshold_bound (ts : Nat) (st : UpdateState)
    (hminmax : st.scatter_check_threshold_min ≤ st.scatter_check_threshold_max)
    (h : st.scatter_check_threshold = 0 ∨
      (st.scatter_check_threshold_min ≤ st.scatter_check_threshold ∧
        st.scatter_check_threshold ≤ st.scatter_check_threshold_max)) :
    effThreshold ts st = 0 ∨
      (st.scatter_check_threshold_min ≤ effThreshold ts st ∧
        effThreshold ts st ≤ st.scatter_check_threshold_max) := by
  unfold effThreshold assignCheckThreshold
  split
  · exact h
  · split
    · rename_i hne
      rcases h with h0 | hb
      · exact absurd h0 hne
      · exact Or.inr hb
    · right
      have : ts % (st.scatter_check_threshold_max -
            st.scatter_check_threshold_min + 1) <
          st.scatter_check_threshold_max - st.scatter_check_threshold_min + 1 :=
        Nat.mod_lt _ (by omega)
      omega

/-! ## URL walk lemmas -/

/-- Any index the walk returns is eligible. -/
theorem searchUrl_eligible (st : UpdateState) :
    ∀ fuel k i, searchUrl st fuel k = some i → urlEligible st i = true := by
  intro fuel
  induction fuel with
  | zero => intro k i h; simp [searchUrl] at h
  | succ n ih =>
    intro k i h
    rw [searchUrl] at h
    split at h
    · rename_i hel
      injection h with h
      rw [← h]
      exact hel
    · exact ih (k + 1) i h

/-- The walk returns the first eligible index in walk order: every earlier
offset is ineligible. -/
theorem searchUrl_first (st : UpdateState) :
    ∀ fuel k0 i, searchUrl st fuel k0 = some i →
      ∃ k, k0 ≤ k ∧ k < k0 + fuel ∧
        i = (startIdx st + k) % st.download_urls.length ∧
        ∀ k', k0 ≤ k' → k' < k →
          urlEligible st ((startIdx st + k') % st.download_urls.length) = false := by
  intro fuel
  induction fuel with
  | zero => intro k0 i h; simp [searchUrl] at h
  | succ n ih =>
    intro k0 i h
    rw [searchUrl] at h
    split at h
    · injection h with h
      exact ⟨k0, Nat.le_refl _, by omega, h.symm,
        fun k' h1 h2 => absurd h1 (by omega)⟩
    · rename_i hel
      rw [Bool.not_eq_true] at hel
      obtain ⟨k, hk1, hk2, hk3, hk4⟩ := ih (k0 + 1) i h
      refine ⟨k, by omega, by omega, hk3, ?_⟩
      intro k' h1 h2
      rcases Nat.eq_or_lt_of_le h1 with he | hlt
      · rw [← he]
        exact hel
      · exact hk4 k' hlt h2

/-- If every index below the URL count is ineligible, the walk finds
nothing. -/
theorem searchUrl_none (st : UpdateState)
    (hpos : 0 < st.download_urls.length)
    (hall : ∀ j, j < st.download_urls.length → urlEligible st j = false) :
    ∀ fuel k, searchUrl st fuel k = none := by
  intro fuel
  induction fuel with
  | zero => intro k; rfl
  | succ n ih =>
    intro k
    rw [searchUrl]
    rw [hall _ (Nat.mod_lt _ hpos)]
    simp only [Bool.false_eq_true, if_false]
    exact ih (k + 1)

/-- A selected URL is eligible. -/
theorem selectUrl_eligible (st : UpdateState) (i : Nat)
    (h : selectUrl st = some i) : urlEligible st i = true := by
  unfold selectUrl at h
  split at h
  · exact absurd h (by simp)
  · exact searchUrl_eligible st _ _ _ h

/-- If every index is at the error cap, no URL is selected. -/
theorem selectUrl_none_of_all_capped (st : UpdateState)
    (hall : ∀ j, j < st.download_urls.length → urlEligible st j = false) :
    selectUrl st = none := by
  unfold selectUrl
  split
  · rfl
  · rename_i hne
    exact searchUrl_none st (Nat.pos_of_ne_zero hne) hall st.download_urls.length 0

/-- The result carries reason Backoff exactly on the backoff branch. -/
theorem reason_backoff_iff (now ws ts : Nat) (p2p : Bool) (st : UpdateState) :
    (resultOf now ws ts p2p st).cannot_start_reason =
        UpdateCannotStartReason.kBackoff ↔ backoffBlocks now st = true := by
  rcases updateCanStart_cases now ws ts st with hb | ⟨hb, hni, hgate⟩ | hg
  · simp [resultOf, updateCanStart_backoff now ws ts p2p st hb, hb]
  · simp [resultOf, updateCanStart_scattering now ws ts p2p st hb hni hgate, hb]
  · cases hsel : selectUrl st with
    | some i =>
      simp [resultOf, updateCanStart_selected now ws ts p2p st i hg hsel, hg.1]
    | none =>
      cases p2p
      · simp [resultOf, updateCanStart_cannotDownload now ws ts st hg hsel, hg.1]
      · simp [resultOf, updateCanStart_p2p now ws ts st hg hsel, hg.1]

/-! ## Example states used by the witnesses -/

/-- A state whose gates all pass: no backoff, scattering satisfied, URL 0
eligible. -/
def stBase : UpdateState :=
  { is_interactive := false
    is_delta_payload := false
    first_seen := 100
    num_checks := 5
    num_failures := 0
    failures_last_updated := 0
    download_urls := ["url0", "url1"]
    download_errors_max := 3
    last_download_url_idx := -1
    last_download_url_num_errors := 0
    download_errors := []
    backoff_expiry := 0
    is_backoff_disabled := false
    scatter_wait_period := 1
    scatter_check_threshold := 1
    scatter_wait_period_max := 10
    scatter_check_threshold_min := 1
    scatter_check_threshold_max := 4 }

/-- A state in active backoff at time 200. -/
def stBackoff : UpdateState := { stBase with backoff_expiry := 300 }

/-- Scenario A of the spec: first non-interactive call, nothing assigned
yet. -/
def stScatterA : UpdateState :=
  { stBase with
    num_checks := 0
    scatter_wait_period := 0
    scatter_check_threshold := 0
    scatter_check_threshold_min := 2 }

/-- Scenario B of the spec: the single URL is at its error cap. -/
def stCapped : UpdateState :=
  { stBase with
    download_urls := ["url0"]
    download_errors :=
      [⟨0, 7, 110⟩, ⟨0, 7, 120⟩, ⟨0, 7, 130⟩] }

/-! ## Claims -/

/-- C1: For every UpdateState, UpdateCanStart returns the Backoff outcome
(update_can_start=false, cannot_start_reason=Backoff, with backoff_expiry
and the scattering fields echoed unchanged) exactly when
is_backoff_disabled is false, now < backoff_expiry, and is_interactive is
false; when is_interactive is true the backoff gate is bypassed regardless
of backoff_expiry. -/
theorem C1_backoff_gate (now ws ts : Nat) (p2p : Bool) (st : UpdateState) :
    ((st.is_backoff_disabled = false ∧ now < st.backoff_expiry ∧
        st.is_interactive = false) ↔
      ((resultOf now ws ts p2p st).update_can_start = false ∧
        (resultOf now ws ts p2p st).cannot_start_reason =
          UpdateCannotStartReason.kBackoff ∧
        (resultOf now ws ts p2p st).backoff_expiry = st.backoff_expiry ∧
        (resultOf now ws ts p2p st).scatter_wait_period =
          st.scatter_wait_period ∧
        (resultOf now ws ts p2p st).scatter_check_threshold =
          st.scatter_check_threshold)) ∧
    (st.is_interactive = true →
      (resultOf now ws ts p2p st).cannot_start_reason ≠
        UpdateCannotStartReason.kBackoff) := by
  constructor
  · constructor
    · intro h
      have hb : backoffBlocks now st = true := (backoffBlocks_iff now st).mpr h
      simp [resultOf, updateCanStart_backoff now ws ts p2p st hb]
    · intro h
      exact (backoffBlocks_iff now st).mp
        ((reason_backoff_iff now ws ts p2p st).mp h.2.1)
  · intro hint hreason
    have hb := (backoffBlocks_iff now st).mp
      ((reason_backoff_iff now ws ts p2p st).mp hreason)
    rw [hb.2.2] at hint
    exact Bool.false_ne_true hint

/-- Witness for C1 at a concrete backed-off state. -/
theorem C1_backoff_gate_witness :
    (resultOf 200 0 0 true stBackoff).update_can_start = false ∧
      (resultOf 200 0 0 true stBackoff).cannot_start_reason =
        UpdateCannotStartReason.kBackoff ∧
      (resultOf 200 0 0 true stBackoff).backoff_expiry =
        stBackoff.backoff_expiry ∧
      (resultOf 200 0 0 true stBackoff).scatter_wait_period =
        stBackoff.scatter_wait_period ∧
      (resultOf 200 0 0 true stBackoff).scatter_check_threshold =
        stBackoff.scatter_check_threshold :=
  (C1_backoff_gate 200 0 0 true stBackoff).1.mp ⟨rfl, by decide, rfl⟩

/-- C7: Determinism: for fixed UpdateState and fixed values of all polled
variables (evaluation time, random seeds, device-policy P2P allowance),
UpdateCanStart is a pure function — two invocations with identical inputs
yield identical EvalStatus and identical UpdateDownloadParams. -/
theorem C7_deterministic (n1 n2 w1 w2 t1 t2 : Nat) (p1 p2 : Bool)
    (s1 s2 : UpdateState) (hn : n1 = n2) (hw : w1 = w2) (ht : t1 = t2)
    (hp : p1 = p2) (hs : s1 = s2) :
    UpdateCanStart n1 w1 t1 p1 s1 = UpdateCanStart n2 w2 t2 p2 s2 := by
  rw [hn, hw, ht, hp, hs]

/-- Witness for C7 at a concrete state. -/
theorem C7_deterministic_witness :
    UpdateCanStart 200 0 0 true stBase = UpdateCanStart 200 0 0 true stBase :=
  C7_deterministic 200 200 0 0 0 0 true true stBase stBase rfl rfl rfl rfl rfl

/-- C9: Frame property: policy.h declares UpdateCanStart taking its
UpdateState by value, so the caller's UpdateState is unchanged by the
call — every field of the state the driver supplied is the same after the
call, regardless of the EvalStatus returned. -/
theorem C9_state_unchanged (now ws ts : Nat) (p2p : Bool) (st : UpdateState) :
    (UpdateCanStartCall now ws ts p2p st).2 = st ∧
      (UpdateCanStartCall now ws ts p2p st).1 =
        UpdateCanStart now ws ts p2p st :=
  ⟨rfl, rfl⟩

/-- C10: Although UpdateCannotStartReason declares a kCheckDue value, every
result of UpdateCanStart is Succeeded with a cannot_start_reason among
Undefined, Scattering, Backoff, CannotDownload — no branch produces
CheckDue. -/
theorem C10_no_check_due (now ws ts : Nat) (p2p : Bool) (st : UpdateState) :
    (UpdateCanStart now ws ts p2p st).1 = EvalStatus.kSucceeded ∧
      ((resultOf now ws ts p2p st).cannot_start_reason =
          UpdateCannotStartReason.kUndefined ∨
        (resultOf now ws ts p2p st).cannot_start_reason =
          UpdateCannotStartReason.kScattering ∨
        (resultOf now ws ts p2p st).cannot_start_reason =
          UpdateCannotStartReason.kBackoff ∨
        (resultOf now ws ts p2p st).cannot_start_reason =
          UpdateCannotStartReason.kCannotDownload) ∧
      (resultOf now ws ts p2p st).cannot_start_reason ≠
        UpdateCannotStartReason.kCheckDue := by
  rcases updateCanStart_cases now ws ts st with hb | ⟨hb, hni, hgate⟩ | hg
  · simp [resultOf, updateCanStart_backoff now ws ts p2p st hb]
  · simp [resultOf, updateCanStart_scattering now ws ts p2p st hb hni hgate]
  · cases hsel : selectUrl st with
    | some i =>
      simp [resultOf, updateCanStart_selected now ws ts p2p st i hg hsel]
    | none =>
      cases p2p
      · simp [resultOf, updateCanStart_cannotDownload now ws ts st hg hsel]
      · simp [resultOf, updateCanStart_p2p now ws ts st hg hsel]

/-- C2: For every non-interactive UpdateState that passes the backoff gate
and whose scattering gate is unsatisfied, UpdateCanStart returns Succeeded
with update_can_start=false and cannot_start_reason=Scattering, carrying
the (possibly newly-assigned) scattering values in the result; on a first
call with num_checks=0 and both persisted scattering values zero, non-zero
values within the given bounds are assigned and returned. -/
theorem C2_scattering_gate (now ws ts : Nat) (p2p : Bool) (st : UpdateState)
    (hni : st.is_interactive = false)
    (hb : backoffBlocks now st = false)
    (hgate : scatterSatisfied now (assignWaitPeriod ws st)
        (assignCheckThreshold ts st) st = false) :
    (UpdateCanStart now ws ts p2p st).1 = EvalStatus.kSucceeded ∧
      (resultOf now ws ts p2p st).update_can_start = false ∧
      (resultOf now ws ts p2p st).cannot_start_reason =
        UpdateCannotStartReason.kScattering ∧
      (resultOf now ws ts p2p st).scatter_wait_period =
        assignWaitPeriod ws st ∧
      (resultOf now ws ts p2p st).scatter_check_threshold =
        assignCheckThreshold ts st ∧
      (st.scatter_wait_period = 0 → st.scatter_check_threshold = 0 →
        1 ≤ st.scatter_wait_period_max → 1 ≤ st.scatter_check_threshold_min →
        st.scatter_check_threshold_min ≤ st.scatter_check_threshold_max →
        1 ≤ assignWaitPeriod ws st ∧
          assignWaitPeriod ws st ≤ st.scatter_wait_period_max ∧
          1 ≤ assignCheckThreshold ts st ∧
          st.scatter_check_threshold_min ≤ assignCheckThreshold ts st ∧
          assignCheckThreshold ts st ≤ st.scatter_check_threshold_max) := by
  have hew : effWait ws st = assignWaitPeriod ws st := by simp [effWait, hni]
  have het : effThreshold ts st = assignCheckThreshold ts st := by
    simp [effThreshold, hni]
  have hgate2 :
      scatterSatisfied now (effWait ws st) (effThreshold ts st) st = false := by
    rw [hew, het]; exact hgate
  have hmain := updateCanStart_scattering now ws ts p2p st hb hni hgate2
  refine ⟨by rw [hmain], by simp [resultOf, hmain], by simp [resultOf, hmain],
    by simp [resultOf, hmain, hew], by simp [resultOf, hmain, het], ?_⟩
  intro hw0 ht0 hwmax htmin hminmax
  have hmne : st.scatter_wait_period_max ≠ 0 := by omega
  have h1 : ws % st.scatter_wait_period_max < st.scatter_wait_period_max :=
    Nat.mod_lt _ (by omega)
  have h2 : ts % (st.scatter_check_threshold_max -
        st.scatter_check_threshold_min + 1) <
      st.scatter_check_threshold_max - st.scatter_check_threshold_min + 1 :=
    Nat.mod_lt _ (by omega)
  simp only [assignWaitPeriod, assignCheckThreshold]
  rw [if_neg (by omega), if_neg hmne, if_neg (by omega)]
  omega

/-- Witness for C2 at Scenario A of the spec. -/
theorem C2_scattering_gate_witness :
    (resultOf 200 3 1 false stScatterA).cannot_start_reason =
        UpdateCannotStartReason.kScattering ∧
      1 ≤ assignWaitPeriod 3 stScatterA ∧
      assignWaitPeriod 3 stScatterA ≤ stScatterA.scatter_wait_period_max ∧
      1 ≤ assignCheckThreshold 1 stScatterA ∧
      stScatterA.scatter_check_threshold_min ≤
        assignCheckThreshold 1 stScatterA ∧
      assignCheckThreshold 1 stScatterA ≤
        stScatterA.scatter_check_threshold_max := by
  have h := C2_scattering_gate 200 3 1 false stScatterA rfl (by decide) (by decide)
  exact ⟨h.2.2.1, h.2.2.2.2.2 rfl rfl (by decide) (by decide) (by decide)⟩

/-- C3: The URL-selection step walks the candidates starting just after
last_download_url_idx (wrapping), never selects an index whose accumulated
error count (counting only download_errors entries since first_seen) has
reached download_errors_max, and when every index is at the cap the
returned download_url_idx is -1. -/
theorem C3_url_selection (now ws ts : Nat) (p2p : Bool) (st : UpdateState) :
    (∀ i, selectUrl st = some i →
      urlErrorCount st i < st.download_errors_max ∧
        ∃ k, k < st.download_urls.length ∧
          i = (startIdx st + k) % st.download_urls.length ∧
          ∀ k', k' < k →
            st.download_errors_max ≤
              urlErrorCount st ((startIdx st + k') % st.download_urls.length)) ∧
    ((∀ j, j < st.download_urls.length →
        st.download_errors_max ≤ urlErrorCount st j) →
      (resultOf now ws ts p2p st).download_url_idx = -1) := by
  constructor
  · intro i hsel
    constructor
    · have h := selectUrl_eligible st i hsel
      simpa [urlEligible] using h
    · unfold selectUrl at hsel
      split at hsel
      · exact absurd hsel (by simp)
      · obtain ⟨k, hk0, hk1, hk2, hk3⟩ := searchUrl_first st _ 0 i hsel
        refine ⟨k, by omega, hk2, ?_⟩
        intro k' hk'
        have h := hk3 k' (Nat.zero_le _) hk'
        simp only [urlEligible, decide_eq_false_iff_not, Nat.not_lt] at h
        exact h
  · intro hall
    have hnone : selectUrl st = none := by
      apply selectUrl_none_of_all_capped
      intro j hj
      simp only [urlEligible, decide_eq_false_iff_not, Nat.not_lt]
      exact hall j hj
    rcases updateCanStart_cases now ws ts st with hb | ⟨hb, hni, hgate⟩ | hg
    · simp [resultOf, updateCanStart_backoff now ws ts p2p st hb]
    · simp [resultOf, updateCanStart_scattering now ws ts p2p st hb hni hgate]
    · cases p2p
      · simp [resultOf, updateCanStart_cannotDownload now ws ts st hg hnone]
      · simp [resultOf, updateCanStart_p2p now ws ts st hg hnone]

/-- Witness for C3 at Scenario B of the spec: the single URL is at its
error cap, so no URL is selected. -/
theorem C3_url_selection_witness :
    (resultOf 200 0 0 false stCapped).download_url_idx = -1 :=
  (C3_url_selection 200 0 0 false stCapped).2
    (fun j hj => by
      have hj0 : j = 0 := by
        have : stCapped.download_urls.length = 1 := by decide
        omega
      rw [hj0]
      decide)

/-- C4: Whenever the URL-selection step selects a URL, the returned
download_url_num_errors is 0 when the selected index differs from the
input's last_download_url_idx, and is the input's
last_download_url_num_errors when the selected index is the same. -/
theorem C4_selected_url_errors (now ws ts : Nat) (p2p : Bool)
    (st : UpdateState) (i : Nat) (hg : gatesPassed now ws ts st)
    (hsel : selectUrl st = some i) :
    (resultOf now ws ts p2p st).download_url_idx = (i : Int) ∧
      ((i : Int) ≠ st.last_download_url_idx →
        (resultOf now ws ts p2p st).download_url_num_errors = 0) ∧
      ((i : Int) = st.last_download_url_idx →
        (resultOf now ws ts p2p st).download_url_num_errors =
          st.last_download_url_num_errors) := by
  have hmain := updateCanStart_selected now ws ts p2p st i hg hsel
  refine ⟨by simp [resultOf, hmain], ?_, ?_⟩
  · intro hne
    simp [resultOf, hmain, hne]
  · intro heq
    simp [resultOf, hmain, heq]

/-- Witness for C4: URL 0 is selected at stBase, and since the input's
last index is -1, the returned error count is 0. -/
theorem C4_selected_url_errors_witness :
    (resultOf 200 0 0 false stBase).download_url_idx = (0 : Int) ∧
      (resultOf 200 0 0 false stBase).download_url_num_errors = 0 := by
  have h := C4_selected_url_errors 200 0 0 false stBase 0
    ⟨by decide, Or.inr (by decide)⟩ (by decide)
  exact ⟨h.1, h.2.1 (by decide)⟩

/-- C5: do_increment_failures is true exactly on the branch where the
gates were passed, no download URL is eligible, and P2P is unavailable;
on that branch update_can_start=false with reason CannotDownload. -/
theorem C5_increment_failures (now ws ts : Nat) (p2p : Bool)
    (st : UpdateState) :
    ((resultOf now ws ts p2p st).do_increment_failures = true ↔
      (gatesPassed now ws ts st ∧ selectUrl st = none ∧ p2p = false)) ∧
    ((resultOf now ws ts p2p st).do_increment_failures = true →
      (resultOf now ws ts p2p st).update_can_start = false ∧
        (resultOf now ws ts p2p st).cannot_start_reason =
          UpdateCannotStartReason.kCannotDownload) := by
  rcases updateCanStart_cases now ws ts st with hb | ⟨hb, hni, hgate⟩ | hg
  · simp [resultOf, updateCanStart_backoff now ws ts p2p st hb,
      gatesPassed, hb]
  · simp [resultOf, updateCanStart_scattering now ws ts p2p st hb hni hgate,
      gatesPassed, hni, hgate]
  · cases hsel : selectUrl st with
    | some i =>
      simp [resultOf, updateCanStart_selected now ws ts p2p st i hg hsel, hsel]
    | none =>
      cases p2p
      · simp [resultOf, updateCanStart_cannotDownload now ws ts st hg hsel,
          hsel, hg]
      · simp [resultOf, updateCanStart_p2p now ws ts st hg hsel, hsel]

/-- Witness for C5 at Scenario B of the spec: capped single URL and no
P2P, giving do_increment_failures with reason CannotDownload. -/
theorem C5_increment_failures_witness :
    (resultOf 200 0 0 false stCapped).do_increment_failures = true ∧
      (resultOf 200 0 0 false stCapped).cannot_start_reason =
        UpdateCannotStartReason.kCannotDownload := by
  have h := C5_increment_failures 200 0 0 false stCapped
  have hinc : (resultOf 200 0 0 false stCapped).do_increment_failures = true :=
    h.1.mpr ⟨⟨by decide, Or.inr (by decide)⟩, by decide, rfl⟩
  exact ⟨hinc, (h.2 hinc).2⟩

/-- C6: Invariant over repeated calls: once the scattering values are
assigned (non-zero), no call changes the returned values except the
assignment step, which runs only while they are still zero; under the
supplied bounds the returned values always satisfy
wait ≤ wait_max and threshold within [threshold_min, threshold_max]
(or are still unassigned). -/
theorem C6_scatter_invariant (now ws ts : Nat) (p2p : Bool)
    (st : UpdateState)
    (hminmax : st.scatter_check_threshold_min ≤ st.scatter_check_threshold_max)
    (hw : st.scatter_wait_period = 0 ∨
      st.scatter_wait_period ≤ st.scatter_wait_period_max)
    (ht : st.scatter_check_threshold = 0 ∨
      (st.scatter_check_threshold_min ≤ st.scatter_check_threshold ∧
        st.scatter_check_threshold ≤ st.scatter_check_threshold_max)) :
    ((st.scatter_wait_period ≠ 0 →
        (resultOf now ws ts p2p st).scatter_wait_period =
          st.scatter_wait_period) ∧
      (st.scatter_check_threshold ≠ 0 →
        (resultOf now ws ts p2p st).scatter_check_threshold =
          st.scatter_check_threshold)) ∧
    ((resultOf now ws ts p2p st).scatter_wait_period = 0 ∨
      (resultOf now ws ts p2p st).scatter_wait_period ≤
        st.scatter_wait_period_max) ∧
    ((resultOf now ws ts p2p st).scatter_check_threshold = 0 ∨
      (st.scatter_check_threshold_min ≤
          (resultOf now ws ts p2p st).scatter_check_threshold ∧
        (resultOf now ws ts p2p st).scatter_check_threshold ≤
          st.scatter_check_threshold_max)) := by
  have hfields :
      ((resultOf now ws ts p2p st).scatter_wait_period =
          st.scatter_wait_period ∧
        (resultOf now ws ts p2p st).scatter_check_threshold =
          st.scatter_check_threshold) ∨
      ((resultOf now ws ts p2p st).scatter_wait_period = effWait ws st ∧
        (resultOf now ws ts p2p st).scatter_check_threshold =
          effThreshold ts st) := by
    rcases updateCanStart_cases now ws ts st with hb | ⟨hb, hni, hgate⟩ | hg
    · left
      simp [resultOf, updateCanStart_backoff now ws ts p2p st hb]
    · right
      simp [resultOf, updateCanStart_scattering now ws ts p2p st hb hni hgate]
    · cases hsel : selectUrl st with
      | some i =>
        right
        simp [resultOf, updateCanStart_selected now ws ts p2p st i hg hsel]
      | none =>
        cases p2p
        · right
          simp [resultOf, updateCanStart_cannotDownload now ws ts st hg hsel]
        · right
          simp [resultOf, updateCanStart_p2p now ws ts st hg hsel]
  rcases hfields with ⟨h1, h2⟩ | ⟨h1, h2⟩
  · refine ⟨⟨fun _ => h1, fun _ => h2⟩, ?_, ?_⟩
    · rw [h1]; exact hw
    · rw [h2]; exact ht
  · refine ⟨⟨?_, ?_⟩, ?_, ?_⟩
    · intro hne; rw [h1]; exact effWait_preserve ws st hne
    · intro hne; rw [h2]; exact effThreshold_preserve ts st hne
    · rw [h1]; exact effWait_bound ws st hw
    · rw [h2]; exact effThreshold_bound ts st hminmax ht

/-- Witness for C6: stBase has both scattering values assigned, and two
calls leave them unchanged. -/
theorem C6_scatter_invariant_witness :
    (resultOf 200 0 0 true stBase).scatter_wait_period =
        stBase.scatter_wait_period ∧
      (resultOf 200 0 0 true stBase).scatter_check_threshold =
        stBase.scatter_check_threshold := by
  have h := C6_scatter_invariant 200 0 0 true stBase (by decide) (by decide)
    (by decide)
  exact ⟨h.1.1 (by decide), h.1.2 (by decide)⟩

/-- C8: UpdateDownloadAllowed returns Failed (with an error message) only
when the network-type variable cannot be read; a disallowed connection is
expressed as Succeeded with result false, never as Failed; on success the
result is the pure boolean acceptability of the connection. -/
theorem C8_download_allowed (conn : Option ConnectionType) (pol : Bool) :
    ((UpdateDownloadAllowed conn pol).1 = EvalStatus.kFailed ↔ conn = none) ∧
    ((UpdateDownloadAllowed conn pol).1 = EvalStatus.kFailed →
      (UpdateDownloadAllowed conn pol).2.2.isSome = true) ∧
    (∀ c, conn = some c →
      UpdateDownloadAllowed conn pol =
        (EvalStatus.kSucceeded, some (connectionAllowed c pol), none)) := by
  cases conn with
  | none => simp [UpdateDownloadAllowed]
  | some c => simp [UpdateDownloadAllowed]

/-- Witness for C8: a cellular connection with cellular downloads not
permitted yields Succeeded with result false, not Failed. -/
theorem C8_download_allowed_witness :
    UpdateDownloadAllowed (some ConnectionType.cellular) false =
      (EvalStatus.kSucceeded, some false, none) :=
  (C8_download_allowed (some ConnectionType.cellular) false).2.2
    ConnectionType.cellular rfl

end UpdateEngine
